import Mathlib

/-!
Verification of the VMnet SLIP relay (vmnet.c).

Shallow embedding of `src/home/zdev/vmnet-0.4/vmnet.c` (a setuid SLIP
relay between stdin/stdout and a pseudo-terminal running the SLIP line
discipline), together with proofs about the claims of the accompanying
specification.

Modelling conventions:
* bytes flowing through the relay are `Nat`s; text handled by the
  authorization code is `List Char` / `String`;
* OS calls (`read`, `write`, `select`, `ioctl`, `getpt`, ...) are driven
  by an explicit environment (`Env`, `SelectEvent`, `PtyEnv`) supplying
  their results, so executions are ordinary deterministic functions of
  the environment;
* `exit(n)` is modelled with `Except` (for the relay loop) and with an
  explicit `ProgOutcome` for whole-program runs;
* the single out-of-bounds write reachable in `login`
  (`sc->remoteip[n-1]` with `n = 0`) is modelled as the distinguished
  outcome `LoginOut.oobWrite`, since no defined C semantics exists there.
-/

namespace VMnet

/-! ## Configuration store reader (vmnet.c lines 130-168) -/

/-- A parsed configuration record (`cfgentry`, vmnet.c lines 82-87). -/
structure cfgentry where
  username : String
  remoteip : String
  localip : String
  script : String
deriving DecidableEq

/-- The whitespace characters recognised by `sscanf` (`isspace` in the C
locale): space, tab, newline, vertical tab, form feed, carriage return. -/
def isSpaceC (c : Char) : Bool :=
  c = ' ' || c = '\t' || c = '\n' || c = '\x0b' || c = '\x0c' || c = '\r'

/-- One `%Ns` directive of `sscanf`: skip whitespace, then read at most `w`
consecutive non-whitespace characters (a token longer than `w` is split:
the remainder stays in the input for the next directive).  Returns `none`
on end of input (conversion failure). -/
def scanField (w : Nat) (cs : List Char) : Option (List Char × List Char) :=
  let rest := cs.dropWhile isSpaceC
  match rest with
  | [] => none
  | _ :: _ =>
    let tok := (rest.takeWhile (fun c => !isSpaceC c)).take w
    some (tok, rest.drop tok.length)

/-- Parsing of one configuration line inside `getcfgentry` (vmnet.c lines
144-156): `sscanf(linebuffer, "%127s %63s %63s %255s", ...)`, requiring
at least 3 converted fields (`r >= 3`) and a first field not starting
with `#`; the optional fourth field (`script`) defaults to the empty
string (`cfg->script[0] = '\0'`).  `none` means the line is skipped. -/
def parseCfgLine (line : List Char) : Option cfgentry :=
  match scanField 127 line with
  | none => none
  | some (u, r1) =>
    match scanField 63 r1 with
    | none => none
    | some (rip, r2) =>
      match scanField 63 r2 with
      | none => none
      | some (lip, r3) =>
        let scr := match scanField 255 r3 with
          | none => ([] : List Char)
          | some (s, _) => s
        if u.head? = some '#' then none
        else some ⟨String.mk u, String.mk rip, String.mk lip, String.mk scr⟩

/-- The sequence of records produced by repeatedly calling `getcfgentry`
(vmnet.c lines 130-157) on a store holding `lines`: every line that
parses with at least 3 fields and is not a comment, in file order. -/
def cfgRecords (lines : List (List Char)) : List cfgentry :=
  lines.filterMap parseCfgLine

/-- The match test of `getcfgbyid` (vmnet.c lines 162-163): exact
`strcmp` equality on both the username and the remote IP. -/
def matchesId (username remoteip : String) (c : cfgentry) : Bool :=
  c.username == username && c.remoteip == remoteip

/-- Model of `getcfgbyid` (vmnet.c lines 159-168): scan records in file order,
return the first one whose username and remoteip both compare equal. -/
def getcfgbyid (lines : List (List Char)) (username remoteip : String) :
    Option cfgentry :=
  (cfgRecords lines).find? (matchesId username remoteip)

/-! ## readline and login (vmnet.c lines 115-128 and 170-190) -/

/-- The do/while loop of `readline` (vmnet.c lines 121-126) with `room`
remaining buffer slots (`room = len - n`, initially `len ≥ 1`): read one
byte; stop after storing a newline or filling the buffer, or at end of
stream (`read` returning `r <= 0`).  Returns the consumed bytes (= the
buffer contents) and the unconsumed remainder of the stream. -/
def readlineAux : List Char → Nat → List Char × List Char
  | [], _ => ([], [])
  | b :: rest, room =>
    if b = '\n' ∨ room ≤ 1 then ([b], rest)
    else
      let p := readlineAux rest (room - 1)
      (b :: p.1, p.2)

/-- Model of `readline(fd, buf, len)` (vmnet.c lines 115-128): returns
`(n, consumed, rest)` where `n` is the return value (number of bytes
stored), `consumed` the bytes stored into `buf[0..n-1]`, and `rest` the
part of the stream left unread.  A stream that ends (or errors) before
delivering a byte yields `n = 0`. -/
def readline (stream : List Char) (len : Nat) : Nat × List Char × List Char :=
  if len = 0 then (0, [], stream)
  else
    let p := readlineAux stream len
    (p.1.length, p.1, p.2)

/-- Contents of a C string buffer: the characters before the first NUL. -/
def cstr (l : List Char) : List Char :=
  l.takeWhile (fun c => c ≠ Char.ofNat 0)

/-- The requested remote address stored by `login` (vmnet.c lines
179-180): the first `n-1` consumed bytes, NUL-terminated at index `n-1`
(`sc->remoteip[n-1] = '\0'`), read as a C string.  Only meaningful when
`readline` returned `n ≥ 1`. -/
def loginRemoteip (stream : List Char) : List Char :=
  let p := readline stream 64
  cstr (p.2.1.take (p.1 - 1))

/-- Model of `strncpy(dst, src, n)` as used in `login`: the copied prefix. -/
def strTake (n : Nat) (s : String) : String :=
  String.mk (s.toList.take n)

/-! ## Duplex relay engine (vmnet.c lines 346-369 and 371-431) -/

/-- The relay state at the top of the `while (go)` loop of `main`
(vmnet.c lines 383-429): the four registration bits of `rfds`/`wfds`
(fd 0 and `masterfd` for reading, `masterfd` and fd 1 for writing), the
pending (still unwritten) windows of `stdinbuf`/`stdoutbuf`
(`buf->ptr .. buf->ptr + buf->len`), and the cumulative byte traffic on
each of the four streams. -/
structure RelayState where
  rStdin : Bool
  rMaster : Bool
  wMaster : Bool
  wStdout : Bool
  inbuf : List Nat
  outbuf : List Nat
  fromHost : List Nat
  toLink : List Nat
  fromLink : List Nat
  toHost : List Nat
deriving DecidableEq

/-- One `select` round's environment: which registered descriptors the
kernel reports ready, and the results of the (at most four) `read`/
`write` calls the loop body would issue.  A `read` result of `none` is
an error (`r < 0`), `some []` is end of stream (`r = 0`), `some bs` a
delivered chunk (realizable chunks have `bs.length ≤ 16*1024`).  A
`write` result is the returned byte count (realizable results do not
exceed the pending length). -/
structure SelectEvent where
  ready0 : Bool
  readyRM : Bool
  readyWM : Bool
  readyW1 : Bool
  readStdin : Option (List Nat)
  readMaster : Option (List Nat)
  writeMaster : Int
  writeStdout : Int
deriving DecidableEq

/-- Block `FD_ISSET(0, &readfds)` of `main` (vmnet.c lines 395-406)
together with `bufread` (lines 346-355): read from stdin; a negative
length exits with code 1 (after `slip_stop`), length 0 is EOF and exits
with code 0 (after `slip_stop`), a positive length registers `masterfd`
for writing and deregisters stdin. -/
def stepHostRead (fire : Bool) (rr : Option (List Nat)) (s : RelayState) :
    Except (Nat × RelayState) RelayState :=
  if fire then
    match rr with
    | none => .error (1, s)
    | some bs =>
      let s1 := { s with inbuf := bs, fromHost := s.fromHost ++ bs }
      if bs = [] then .error (0, s1)
      else .ok { s1 with wMaster := true, rStdin := false }
  else .ok s

/-- Block `FD_ISSET(sc.masterfd, &readfds)` of `main` (vmnet.c lines
407-413) with `bufread`: read from the link; negative length exits 1;
a positive length registers fd 1 for writing and deregisters the link;
length 0 leaves the registrations unchanged (no EOF test on this side). -/
def stepLinkRead (fire : Bool) (rr : Option (List Nat)) (s : RelayState) :
    Except (Nat × RelayState) RelayState :=
  if fire then
    match rr with
    | none => .error (1, s)
    | some bs =>
      let s1 := { s with outbuf := bs, fromLink := s.fromLink ++ bs }
      if bs = [] then .ok s1
      else .ok { s1 with wStdout := true, rMaster := false }
  else .ok s

/-- Block `FD_ISSET(sc.masterfd, &writefds)` of `main` (vmnet.c lines
414-420) with `bufwrite` (lines 357-369): write the pending stdin
buffer to the link; `r <= 0` exits 1 (after `slip_stop`); otherwise the
window advances by `r` (`buf->len -= r; buf->ptr += r`) and, once fully
drained, stdin is re-registered for reading and the link deregistered
for writing. -/
def stepLinkWrite (fire : Bool) (r : Int) (s : RelayState) :
    Except (Nat × RelayState) RelayState :=
  if fire then
    if r ≤ 0 then .error (1, s)
    else
      let k := r.toNat
      let s1 := { s with toLink := s.toLink ++ s.inbuf.take k,
                         inbuf := s.inbuf.drop k }
      if s1.inbuf = [] then .ok { s1 with rStdin := true, wMaster := false }
      else .ok s1
  else .ok s

/-- Block `FD_ISSET(1, &writefds)` of `main` (vmnet.c lines 421-427)
with `bufwrite`: symmetric to `stepLinkWrite` for the link-to-host
buffer written to fd 1. -/
def stepHostWrite (fire : Bool) (r : Int) (s : RelayState) :
    Except (Nat × RelayState) RelayState :=
  if fire then
    if r ≤ 0 then .error (1, s)
    else
      let k := r.toNat
      let s1 := { s with toHost := s.toHost ++ s.outbuf.take k,
                         outbuf := s.outbuf.drop k }
      if s1.outbuf = [] then .ok { s1 with rMaster := true, wStdout := false }
      else .ok s1
  else .ok s

/-- One iteration of the `while (go)` loop (vmnet.c lines 388-429):
`readfds`/`writefds` are the snapshot of `rfds`/`wfds` restricted to the
descriptors `select` reports ready; the four blocks then run in program
order on the live state.  `select` returning `n <= 0` (e.g. `EINTR`)
runs no block. -/
def stepRelay (e : SelectEvent) (s : RelayState) :
    Except (Nat × RelayState) RelayState :=
  let f0 := s.rStdin && e.ready0
  let fRM := s.rMaster && e.readyRM
  let fWM := s.wMaster && e.readyWM
  let fW1 := s.wStdout && e.readyW1
  if f0 || fRM || fWM || fW1 then
    match stepHostRead f0 e.readStdin s with
    | .error x => .error x
    | .ok s1 =>
      match stepLinkRead fRM e.readMaster s1 with
      | .error x => .error x
      | .ok s2 =>
        match stepLinkWrite fWM e.writeMaster s2 with
        | .error x => .error x
        | .ok s3 => stepHostWrite fW1 e.writeStdout s3
  else .ok s

/-- The relay state after `FD_ZERO`/`FD_SET` initialisation (vmnet.c
lines 383-386): stdin and the link master registered for reading,
nothing registered for writing, no pending data, no traffic yet. -/
def initRelay : RelayState :=
  ⟨true, true, false, false, [], [], [], [], [], []⟩

/-- Run the relay loop over a finite schedule of `select` rounds.
`.ok s` is the state when the schedule ends with the loop still live
(or `go` cleared by a signal, vmnet.c line 388); `.error (c, s)` means
some round called `exit(c)` (always after `slip_stop`). -/
def runRelay : List SelectEvent → RelayState → Except (Nat × RelayState) RelayState
  | [], s => .ok s
  | e :: es, s =>
    match stepRelay e s with
    | .error x => .error x
    | .ok s1 => runRelay es s1

/-- Host-to-link direction state machine invariant: either idle-reading
(stdin registered for read, link not registered for write, no pending
bytes) or pending-write (the reverse, with a non-empty pending buffer). -/
def dirHostLink (s : RelayState) : Prop :=
  (s.rStdin = true ∧ s.wMaster = false ∧ s.inbuf = []) ∨
  (s.rStdin = false ∧ s.wMaster = true ∧ s.inbuf ≠ [])

/-- Link-to-host direction state machine invariant, symmetric to
`dirHostLink`. -/
def dirLinkHost (s : RelayState) : Prop :=
  (s.rMaster = true ∧ s.wStdout = false ∧ s.outbuf = []) ∨
  (s.rMaster = false ∧ s.wStdout = true ∧ s.outbuf ≠ [])

/-- Byte-stream fidelity: in each direction the bytes written so far,
followed by the still-pending buffer, are exactly the bytes read so far
(no loss, duplication or reordering). -/
def fidelity (s : RelayState) : Prop :=
  s.fromHost = s.toLink ++ s.inbuf ∧ s.fromLink = s.toHost ++ s.outbuf

/-- Full relay-loop invariant. -/
def relayInv (s : RelayState) : Prop :=
  dirHostLink s ∧ dirLinkHost s ∧ fidelity s

/-! ## Pseudo-terminal pair allocation (vmnet.c lines 192-221) -/

/-- Environment for one `open_pty_pair` call: results of `getpt`,
`grantpt`, `unlockpt`, `ptsname_r` and the slave `open`. -/
structure PtyEnv where
  getptRes : Int
  grantOk : Bool
  unlockOk : Bool
  ptsnameRes : Int
  openRes : Int
deriving DecidableEq

/-- Observable result of `open_pty_pair`: the return value, the values
stored through `masterp`/`slavep` (`none` = never assigned), and the
descriptors opened by the call resp. closed again before returning. -/
structure PtyResult where
  ret : Int
  masterp : Option Int
  slavep : Option Int
  opened : List Int
  closed : List Int
deriving DecidableEq

/-- Model of `open_pty_pair` (vmnet.c lines 192-221): `getpt`; on success
`grantpt`/`unlockpt`/`ptsname_r`/`open(slave)`, closing the master and
returning 0 on any failure; the output pointers are written only on the
full success path, which returns 1. -/
def open_pty_pair (e : PtyEnv) : PtyResult :=
  let master := e.getptRes
  if master < 0 then ⟨0, none, none, [], []⟩
  else if e.grantOk = false ∨ e.unlockOk = false then
    ⟨0, none, none, [master], [master]⟩
  else if e.ptsnameRes < 0 then ⟨0, none, none, [master], [master]⟩
  else
    let slave := e.openRes
    if slave < 0 then ⟨0, none, none, [master], [master]⟩
    else ⟨1, some master, some slave, [master, slave], []⟩

/-! ## Whole-program model (login, slip_start, relay, teardown) -/

/-- The SLIP line discipline number (`N_SLIP`); the concrete value is
irrelevant, only equality tests against it matter. -/
def N_SLIP : Int := 1

/-- Environment for one whole process run: the identity resolved by
`getpwuid`, the host-input stream prefix available to `login`, the
configuration store (openability and contents), the results of every
privileged setup call, the `IFCONFIG` path baked in from `config.h`
(absent from `src/`, so treated as an arbitrary trusted constant), and
the schedule of relay rounds. -/
structure Env where
  pwname : String
  hostLine : List Char
  cfgOpen : Bool
  cfgLines : List (List Char)
  pty : PtyEnv
  ttyOk : Bool
  getdOk : Bool
  ldiscOld : Int
  setdRet : Int
  setencapOk : Bool
  getd2Ok : Bool
  getencapOk : Bool
  getd2 : Int
  getencap2 : Int
  ifconfig : String
  relayEvents : List SelectEvent

/-- Outcome of `login` (vmnet.c lines 170-190). `oobWrite` marks the
out-of-bounds store `sc->remoteip[n-1]` executed when `readline`
returns 0 (no defined behaviour exists past that point). -/
inductive LoginOut where
  | oobWrite
  | cfgFail
  | unauth
  | ok (username remoteip localip script : String)
deriving DecidableEq

/-- Model of `login` (vmnet.c lines 170-190): truncating copy of the resolved
user name, one `readline` of the requested remote address (newline
stripped by overwriting the last stored byte with NUL), then the
configuration lookup; `exit(1)` if the store cannot be opened
(`getcfgentry`, lines 136-141) or no record matches (lines 182-187).
On success the local address and script are `strncpy`-copied from the
matched record. -/
def loginStep (env : Env) : LoginOut :=
  let uname := strTake 127 env.pwname
  let n := (readline env.hostLine 64).1
  if n = 0 then .oobWrite
  else
    let rip := String.mk (loginRemoteip env.hostLine)
    if env.cfgOpen = false then .cfgFail
    else
      match getcfgbyid env.cfgLines uname rip with
      | none => .unauth
      | some c => .ok uname rip (strTake 64 c.localip) (strTake 256 c.script)

/-- Whether `login` completed and the program continues to
`slip_start`. -/
def loginOk (env : Env) : Bool :=
  match loginStep env with
  | .ok _ _ _ _ => true
  | _ => false

/-- Model of `slip_setup` (vmnet.c lines 254-288): save the old line discipline
(`TIOCGETD`), switch to `N_SLIP` (`TIOCSETD`, whose return value is the
captured unit number), set encapsulation 0 (`SIOCSIFENCAP`), then
re-query both (`TIOCGETD`, `SIOCGIFENCAP`) and require
`disc == N_SLIP && sencap == 0`; any ioctl failure or mismatch exits 1
(modelled as `none`).  On success returns the unit number and the saved
line discipline. -/
def slip_setup (env : Env) : Option (Int × Int) :=
  if env.getdOk = false then none
  else if env.setdRet < 0 then none
  else if env.setencapOk = false then none
  else if env.getd2Ok = false then none
  else if env.getencapOk = false then none
  else if env.getd2 ≠ N_SLIP ∨ env.getencap2 ≠ 0 then none
  else some (env.setdRet, env.ldiscOld)

/-- A single-quote character, as wrapped around script arguments by the
`sprintf` calls in `interface_start`/`interface_stop`. -/
def sq : String := String.singleton (Char.ofNat 39)

/-- Quote a hook argument the way the C `sprintf` format does. -/
def q (s : String) : String := sq ++ s ++ sq

/-- The shell command built by `interface_start` (vmnet.c lines
290-301): the ifconfig invocation, plus the `&& script up ...` suffix
when a script is configured. -/
def startCmd (ifc : String) (unit : Int) (localip remoteip script : String) :
    String :=
  ifc ++ " sl" ++ toString unit ++ " " ++ localip ++ " pointopoint " ++
    remoteip ++ " netmask 255.255.255.255 mtu 1500" ++
    (if script = "" then "" else
      " && " ++ script ++ " up " ++ q remoteip ++ " " ++ q localip)

/-- The shell command built by `interface_stop` (vmnet.c lines 317-328). -/
def stopCmd (ifc : String) (unit : Int) (script remoteip localip : String) :
    String :=
  ifc ++ " sl" ++ toString unit ++ " down" ++
    (if script = "" then "" else
      " && " ++ script ++ " down " ++ q remoteip ++ " " ++ q localip)

/-- How a modelled process run ends. -/
inductive ProgOutcome where
  | ub
  | exited (code : Nat)
deriving DecidableEq

/-- Observable trace of one process run: the outcome, the number of
`slip_stop` (Link Teardown) invocations, and the `system` command
strings issued, in order. -/
structure ProgTrace where
  outcome : ProgOutcome
  teardowns : Nat
  cmds : List String
deriving DecidableEq

/-- The whole program, `main` (vmnet.c lines 371-431): `login`, then
`slip_start` (lines 303-315: `open_pty_pair`, `tty_setup` whose
`tcsetattr` failure exits 1, `slip_setup`, `interface_start`), then the
relay loop.  Every exit from the relay phase — `exit(0)` on stdin EOF,
`exit(1)` from `bufread`/`bufwrite`, or falling out of the loop when
`go` is cleared — runs `slip_stop` (lines 340-344: `interface_stop`
then `slip_release`) exactly once first.  The earlier `exit(1)` sites
(config open failure, unauthorized, pty/tty/slip setup failures) do not
call `slip_stop`. -/
def runProgram (env : Env) : ProgTrace :=
  match loginStep env with
  | .oobWrite => ⟨.ub, 0, []⟩
  | .cfgFail => ⟨.exited 1, 0, []⟩
  | .unauth => ⟨.exited 1, 0, []⟩
  | .ok _ rip lip scr =>
    if (open_pty_pair env.pty).ret = 0 then ⟨.exited 1, 0, []⟩
    else if env.ttyOk = false then ⟨.exited 1, 0, []⟩
    else
      match slip_setup env with
      | none => ⟨.exited 1, 0, []⟩
      | some (unit, _) =>
        let up := startCmd env.ifconfig unit lip rip scr
        let down := stopCmd env.ifconfig unit scr rip lip
        match runRelay env.relayEvents initRelay with
        | .ok _ => ⟨.exited 0, 1, [up, down]⟩
        | .error x => ⟨.exited x.1, 1, [up, down]⟩

/-- Link establishment completed: `login` succeeded and all of
`open_pty_pair`, `tcsetattr` and `slip_setup` succeeded, so the run
reaches `interface_start` and the relay loop. -/
def establishes (env : Env) : Bool :=
  loginOk env && (open_pty_pair env.pty).ret != 0 && env.ttyOk &&
    (slip_setup env).isSome

/-- A relay-loop result that called `exit code`. -/
def exitsWith (code : Nat) (r : Except (Nat × RelayState) RelayState) : Prop :=
  match r with
  | .error x => x.1 = code
  | .ok _ => False

/-- Postcondition attached to a relay-loop result: a surviving state
satisfies the loop invariant; an exiting state still satisfies it, and
an exit with code 0 (stdin EOF) additionally has a fully drained
host-to-link buffer. -/
def stepPost (r : Except (Nat × RelayState) RelayState) : Prop :=
  match r with
  | .ok t => relayInv t
  | .error (c, t) => relayInv t ∧ (c = 0 → t.inbuf = [])

instance (s : RelayState) : Decidable (dirHostLink s) := by
  unfold dirHostLink; infer_instance

instance (s : RelayState) : Decidable (dirLinkHost s) := by
  unfold dirLinkHost; infer_instance

instance (s : RelayState) : Decidable (fidelity s) := by
  unfold fidelity; infer_instance

instance (s : RelayState) : Decidable (relayInv s) := by
  unfold relayInv; infer_instance

instance {e a : Type} [DecidableEq e] [DecidableEq a] : DecidableEq (Except e a) :=
  fun x y =>
    match x, y with
    | .error u, .error v =>
      if h : u = v then .isTrue (by rw [h])
      else .isFalse (fun hh => by cases hh; exact h rfl)
    | .error _, .ok _ => .isFalse (fun hh => by cases hh)
    | .ok _, .error _ => .isFalse (fun hh => by cases hh)
    | .ok u, .ok v =>
      if h : u = v then .isTrue (by rw [h])
      else .isFalse (fun hh => by cases hh; exact h rfl)

instance (code : Nat) (r : Except (Nat × RelayState) RelayState) :
    Decidable (exitsWith code r) :=
  match r with
  | .error x => if h : x.1 = code then .isTrue h else .isFalse h
  | .ok _ => .isFalse (fun h => h)

/-! ## Concrete demonstration data for witnesses and counterexamples -/

/-- The configuration line of the worked example in the specification. -/
def demoCfgLine : List Char := "alice 10.0.0.2 10.0.0.1 /etc/vmnet/up.sh".toList

/-- The record `demoCfgLine` parses to. -/
def demoEntry : cfgentry := ⟨"alice", "10.0.0.2", "10.0.0.1", "/etc/vmnet/up.sh"⟩

/-- A fully successful pty allocation environment. -/
def demoPty : PtyEnv := ⟨5, true, true, 0, 6⟩

/-- A `select` round delivering two bytes from stdin. -/
def evData : SelectEvent := ⟨true, false, false, false, some [3, 4], none, 0, 0⟩

/-- A `select` round in which the link accepts a 2-byte write. -/
def evDrain : SelectEvent := ⟨false, false, true, false, none, none, 2, 0⟩

/-- A `select` round reporting EOF on stdin. -/
def evEof : SelectEvent := ⟨true, false, false, false, some [], none, 0, 0⟩

/-- An environment in which every step succeeds (the spec's worked
example), with an empty relay schedule. -/
def envFull : Env :=
  { pwname := "alice"
    hostLine := "10.0.0.2\n".toList
    cfgOpen := true
    cfgLines := [demoCfgLine]
    pty := demoPty
    ttyOk := true
    getdOk := true
    ldiscOld := 0
    setdRet := 0
    setencapOk := true
    getd2Ok := true
    getencapOk := true
    getd2 := N_SLIP
    getencap2 := 0
    ifconfig := "/sbin/ifconfig"
    relayEvents := [] }

/-- Like `envFull`, but the configuration store cannot be opened. -/
def envCfgFail : Env := { envFull with cfgOpen := false }

/-- Like `envFull`, but the re-queried line discipline is not `N_SLIP`. -/
def envMismatch : Env := { envFull with getd2 := 0 }

/-- Like `envFull`, but the host stream ends before delivering a byte. -/
def envEmptyHost : Env := { envFull with hostLine := [] }

/-- Like `envFull`, with one relay round reporting EOF on stdin. -/
def envRelayEof : Env := { envFull with relayEvents := [evEof] }

/-! ## Relay loop invariant preservation -/

/-- One iteration of the relay loop preserves the invariant, on the
surviving path and on every exiting path; the EOF exit (code 0)
additionally leaves the host-to-link buffer empty. -/
theorem stepRelay_sound (e : SelectEvent) (s : RelayState) (h : relayInv s) :
    stepPost (stepRelay e s) := by
  obtain ⟨e0, eRM, eWM, eW1, rs, rm, wm, w1⟩ := e
  obtain ⟨a1, a2, a3, a4, ib, ob, fh, tl, fl, th⟩ := s
  simp only [relayInv, dirHostLink, dirLinkHost, fidelity] at h
  obtain ⟨hHL, hLH, hF1, hF2⟩ := h
  subst hF1; subst hF2
  rcases hHL with ⟨rfl, rfl, rfl⟩ | ⟨rfl, rfl, h3⟩ <;>
    rcases hLH with ⟨rfl, rfl, rfl⟩ | ⟨rfl, rfl, g3⟩
  · -- host→link idle-reading, link→host idle-reading
    cases e0 <;> cases eRM <;>
      rcases rs with _ | (_ | ⟨b, bs⟩) <;> rcases rm with _ | (_ | ⟨c, cs⟩) <;>
        simp_all [stepRelay, stepHostRead, stepLinkRead, stepLinkWrite,
          stepHostWrite, stepPost, relayInv, dirHostLink, dirLinkHost, fidelity]
  · -- host→link idle-reading, link→host pending-write
    cases e0 <;> cases eW1 <;>
      rcases rs with _ | (_ | ⟨b, bs⟩) <;> by_cases hw : w1 ≤ 0 <;>
        by_cases hd : ob.length ≤ w1.toNat <;>
          simp_all [stepRelay, stepHostRead, stepLinkRead, stepLinkWrite,
            stepHostWrite, stepPost, relayInv, dirHostLink, dirLinkHost,
            fidelity, List.append_assoc, -not_le, -Nat.not_le]
  · -- host→link pending-write, link→host idle-reading
    cases eWM <;> cases eRM <;>
      rcases rm with _ | (_ | ⟨c, cs⟩) <;> by_cases hw : wm ≤ 0 <;>
        by_cases hd : ib.length ≤ wm.toNat <;>
          simp_all [stepRelay, stepHostRead, stepLinkRead, stepLinkWrite,
            stepHostWrite, stepPost, relayInv, dirHostLink, dirLinkHost,
            fidelity, List.append_assoc, -not_le, -Nat.not_le]
  · -- both directions pending-write
    cases eWM <;> cases eW1 <;>
      by_cases hw : wm ≤ 0 <;> by_cases hw1 : w1 ≤ 0 <;>
        by_cases hd : ib.length ≤ wm.toNat <;>
          by_cases hd1 : ob.length ≤ w1.toNat <;>
            simp_all [stepRelay, stepHostRead, stepLinkRead, stepLinkWrite,
              stepHostWrite, stepPost, relayInv, dirHostLink, dirLinkHost,
              fidelity, List.append_assoc, -not_le, -Nat.not_le]

/-- The initial relay state satisfies the loop invariant. -/
theorem initRelay_inv : relayInv initRelay := by decide

/-- The relay-loop invariant holds at the end of every schedule, both on
the surviving path and at every exit. -/
theorem runRelay_sound :
    ∀ (es : List SelectEvent) (s : RelayState),
      relayInv s → stepPost (runRelay es s)
  | [], s, h => h
  | e :: es, s, h => by
    have hs := stepRelay_sound e s h
    cases heq : stepRelay e s with
    | error x =>
      rw [heq] at hs
      simpa [runRelay, heq] using hs
    | ok s1 =>
      rw [heq] at hs
      simpa [runRelay, heq] using runRelay_sound es s1 hs

/-- C1: every byte read from the host-input stream after the address
line is written to the link descriptor byte-for-byte, with no loss,
duplication or reordering, and symmetrically for bytes read from the
link and written to host output: at every reachable loop-top state (and
at the orderly EOF exit) the bytes written so far, followed by the
still-buffered remainder, are exactly the bytes read so far, in order;
at the EOF exit (code 0) the host-to-link direction is fully flushed. -/
theorem relay_byte_fidelity (es : List SelectEvent) :
    (∀ t, runRelay es initRelay = .ok t →
      t.fromHost = t.toLink ++ t.inbuf ∧ t.fromLink = t.toHost ++ t.outbuf) ∧
    (∀ t, runRelay es initRelay = .error (0, t) →
      t.fromHost = t.toLink ∧ t.fromLink = t.toHost ++ t.outbuf) := by
  have h := runRelay_sound es initRelay initRelay_inv
  constructor
  · intro t ht
    rw [ht] at h
    simp only [stepPost, relayInv] at h
    exact h.2.2
  · intro t ht
    rw [ht] at h
    simp only [stepPost, relayInv] at h
    obtain ⟨⟨_, _, hf⟩, hz⟩ := h
    have hib := hz trivial
    refine ⟨?_, hf.2⟩
    rw [hf.1, hib, List.append_nil]

/-- Witness for `relay_byte_fidelity`: a concrete two-round schedule
(read the bytes 3,4 from the host, then drain them to the link). -/
theorem relay_byte_fidelity_w :
    (⟨true, true, false, false, [], [], [3, 4], [3, 4], [], []⟩ :
        RelayState).fromHost =
      (⟨true, true, false, false, [], [], [3, 4], [3, 4], [], []⟩ :
        RelayState).toLink ++
      (⟨true, true, false, false, [], [], [3, 4], [3, 4], [], []⟩ :
        RelayState).inbuf ∧
    (⟨true, true, false, false, [], [], [3, 4], [3, 4], [], []⟩ :
        RelayState).fromLink =
      (⟨true, true, false, false, [], [], [3, 4], [3, 4], [], []⟩ :
        RelayState).toHost ++
      (⟨true, true, false, false, [], [], [3, 4], [3, 4], [], []⟩ :
        RelayState).outbuf :=
  (relay_byte_fidelity [evData, evDrain]).1
    ⟨true, true, false, false, [], [], [3, 4], [3, 4], [], []⟩ (by decide)

/-- C4: at every reachable loop-top state, each direction is in exactly
one of the two states idle-reading (source registered for read, empty
buffer) or pending-write (destination registered for write, non-empty
buffer); in particular a source descriptor is never registered for
reading while its direction still holds unwritten bytes. -/
theorem relay_backpressure (es : List SelectEvent) (t : RelayState)
    (ht : runRelay es initRelay = .ok t) :
    (dirHostLink t ∧ dirLinkHost t) ∧
    (t.rStdin = true → t.wMaster = false ∧ t.inbuf = []) ∧
    (t.rMaster = true → t.wStdout = false ∧ t.outbuf = []) := by
  have h := runRelay_sound es initRelay initRelay_inv
  rw [ht] at h
  simp only [stepPost, relayInv] at h
  obtain ⟨hHL, hLH, _⟩ := h
  refine ⟨⟨hHL, hLH⟩, ?_, ?_⟩
  · intro hr
    rcases hHL with ⟨_, h2, h3⟩ | ⟨h1, _, _⟩
    · exact ⟨h2, h3⟩
    · rw [hr] at h1; cases h1
  · intro hr
    rcases hLH with ⟨_, h2, h3⟩ | ⟨h1, _, _⟩
    · exact ⟨h2, h3⟩
    · rw [hr] at h1; cases h1

/-- Witness for `relay_backpressure`: after one round that reads two
bytes from the host, that direction is in pending-write and stdin is
deregistered. -/
theorem relay_backpressure_w :
    (dirHostLink (⟨false, true, true, false, [3, 4], [], [3, 4], [], [], []⟩ :
        RelayState) ∧
     dirLinkHost (⟨false, true, true, false, [3, 4], [], [3, 4], [], [], []⟩ :
        RelayState)) ∧
    ((⟨false, true, true, false, [3, 4], [], [3, 4], [], [], []⟩ :
        RelayState).rStdin = true →
      (⟨false, true, true, false, [3, 4], [], [3, 4], [], [], []⟩ :
        RelayState).wMaster = false ∧
      (⟨false, true, true, false, [3, 4], [], [3, 4], [], [], []⟩ :
        RelayState).inbuf = []) ∧
    ((⟨false, true, true, false, [3, 4], [], [3, 4], [], [], []⟩ :
        RelayState).rMaster = true →
      (⟨false, true, true, false, [3, 4], [], [3, 4], [], [], []⟩ :
        RelayState).wStdout = false ∧
      (⟨false, true, true, false, [3, 4], [], [3, 4], [], [], []⟩ :
        RelayState).outbuf = []) :=
  relay_backpressure [evData]
    ⟨false, true, true, false, [3, 4], [], [3, 4], [], [], []⟩ (by decide)

/-! ## Authorization lookup -/

/-- C2: the authorization lookup returns `some c` exactly when `c` is
the first record in file order whose username and remote-address fields
both equal the request strings under exact (case-sensitive, whole
string) comparison, every earlier record failing the exact double
match.  Partial, prefix, or case-insensitive agreement is not equality
of strings, so it never satisfies the right-hand side. -/
theorem authorize_first_exact_match (lines : List (List Char))
    (u r : String) (c : cfgentry) :
    getcfgbyid lines u r = some c ↔
      c.username = u ∧ c.remoteip = r ∧
        ∃ pre post, cfgRecords lines = pre ++ c :: post ∧
          ∀ e ∈ pre, ¬(e.username = u ∧ e.remoteip = r) := by
  unfold getcfgbyid
  rw [List.find?_eq_some]
  constructor
  · rintro ⟨hm, pre, post, heq, hall⟩
    have hm2 : c.username = u ∧ c.remoteip = r := by simpa [matchesId] using hm
    refine ⟨hm2.1, hm2.2, pre, post, heq, fun e he hc => ?_⟩
    have h2 := hall e he
    simp [matchesId, hc.1, hc.2] at h2
  · rintro ⟨h1, h2, pre, post, heq, hall⟩
    refine ⟨by simp [matchesId, h1, h2], pre, post, heq, fun e he => ?_⟩
    have h3 := hall e he
    by_cases hu : e.username = u
    · by_cases hr : e.remoteip = r
      · exact absurd ⟨hu, hr⟩ h3
      · simp [matchesId, hr]
    · simp [matchesId, hu]

/-- Witness for `authorize_first_exact_match`: the spec's worked example
store resolves `(alice, 10.0.0.2)` to the demo record. -/
theorem authorize_first_exact_match_w :
    getcfgbyid [demoCfgLine] "alice" "10.0.0.2" = some demoEntry :=
  (authorize_first_exact_match [demoCfgLine] "alice" "10.0.0.2" demoEntry).mpr
    ⟨by decide, by decide, [], [],
      by decide, by simp⟩

/-! ## Descriptor pair allocation -/

/-- C9: `open_pty_pair` is all-or-nothing: either it returns 1 having
assigned both output descriptors, with nothing it opened closed again,
or it returns 0 having assigned neither output and having closed every
descriptor it had opened. -/
theorem open_pty_pair_all_or_nothing (e : PtyEnv) :
    ((open_pty_pair e).ret = 1 ∧
      (open_pty_pair e).masterp = some e.getptRes ∧
      (open_pty_pair e).slavep = some e.openRes ∧
      (open_pty_pair e).closed = []) ∨
    ((open_pty_pair e).ret = 0 ∧ (open_pty_pair e).masterp = none ∧
      (open_pty_pair e).slavep = none ∧
      ∀ fd ∈ (open_pty_pair e).opened, fd ∈ (open_pty_pair e).closed) := by
  obtain ⟨g, gr, ul, pn, op⟩ := e
  by_cases hg : g < 0 <;> by_cases h2 : gr = false ∨ ul = false <;>
    by_cases h3 : pn < 0 <;> by_cases h4 : op < 0 <;>
      simp_all [open_pty_pair, -not_lt]

/-- Witness for `open_pty_pair_all_or_nothing`: a run whose slave open
fails leaves no descriptor assigned. -/
theorem open_pty_pair_all_or_nothing_w :
    (open_pty_pair ⟨5, true, true, 0, -1⟩).masterp = none ∧
    (open_pty_pair ⟨5, true, true, 0, -1⟩).slavep = none := by
  rcases open_pty_pair_all_or_nothing ⟨5, true, true, 0, -1⟩ with h | h
  · exact absurd h.1 (by decide)
  · exact ⟨h.2.1, h.2.2.1⟩

/-! ## readline bounds and line extraction -/

/-- C10 (code bug): on a host stream that ends before delivering any
byte, `readline` returns 0, violating the claimed bound `1 ≤ n`, and
`login` consequently executes the out-of-bounds store
`sc->remoteip[0-1]` (the `oobWrite` outcome). -/
theorem readline_zero_on_empty_stream :
    readline ([] : List Char) 64 = (0, [], []) ∧
    ¬(1 ≤ (readline ([] : List Char) 64).1) ∧
    loginStep envEmptyHost = .oobWrite := by decide

/-- Helper: when the first newline of the stream arrives while buffer
room remains, the `readline` loop consumes exactly the line and its
newline and leaves the rest of the stream unread. -/
theorem readlineAux_newline :
    ∀ (line rest : List Char) (room : Nat), '\n' ∉ line →
      line.length < room →
      readlineAux (line ++ '\n' :: rest) room = (line ++ ['\n'], rest)
  | [], rest, room, _, _ => by simp [readlineAux]
  | b :: line, rest, room, hnl, hr => by
    have hb : ¬(b = '\n') := fun h => hnl (h ▸ List.mem_cons_self b line)
    have hroom : ¬(room ≤ 1) := by
      simp only [List.length_cons] at hr
      omega
    have hr2 : line.length < room - 1 := by
      simp only [List.length_cons] at hr
      omega
    have ih := readlineAux_newline line rest (room - 1)
      (fun h => hnl (List.mem_cons_of_mem b h)) hr2
    simp [readlineAux, hb, hroom, ih]

/-- C8 counterexample: on the host stream consisting of the two bytes
`a`, `b` and no newline at all, `login` stores `a` as the requested
remote address, whereas the first line of that stream with its (absent)
terminator stripped is `ab` — the final data byte is stripped instead
of a line terminator, so the stored address does not equal the line. -/
theorem login_strips_data_byte_without_newline :
    loginRemoteip ['a', 'b'] = ['a'] ∧
    (['a', 'b'].takeWhile (fun c => c ≠ '\n')) = ['a', 'b'] ∧
    loginRemoteip ['a', 'b'] ≠ ['a', 'b'].takeWhile (fun c => c ≠ '\n') := by
  decide

/-- C8 (amended): when the first line of the host stream ends with a
newline within the 64-byte address buffer (and contains no NUL byte),
`login` reads byte-at-a-time, consumes exactly the line including its
newline — no byte of the subsequent packet stream — and the stored
requested remote address is exactly the line with the newline stripped.
When the stream ends, or the buffer fills, before a newline arrives,
`readline` stops early and `login` strips the last consumed byte
instead, so the stored address can differ from the first line. -/
theorem login_line_extraction (line rest : List Char)
    (hnl : '\n' ∉ line) (hnul : Char.ofNat 0 ∉ line)
    (hlen : line.length < 64) :
    readline (line ++ '\n' :: rest) 64 =
      (line.length + 1, line ++ ['\n'], rest) ∧
    loginRemoteip (line ++ '\n' :: rest) = line := by
  have haux := readlineAux_newline line rest 64 hnl hlen
  have hread : readline (line ++ '\n' :: rest) 64 =
      (line.length + 1, line ++ ['\n'], rest) := by
    simp [readline, haux]
  refine ⟨hread, ?_⟩
  unfold loginRemoteip
  rw [hread]
  simp only [Nat.add_sub_cancel]
  rw [List.take_left' rfl]
  unfold cstr
  rw [List.takeWhile_eq_self_iff.mpr]
  intro x hx
  simp only [ne_eq, decide_eq_true_eq]
  exact fun h => hnul (h ▸ hx)

/-- Witness for `login_line_extraction`: the line `10` followed by a
newline and one packet byte. -/
theorem login_line_extraction_w :
    readline (['1', '0'] ++ '\n' :: ['x']) 64 =
      ((['1', '0'] : List Char).length + 1, ['1', '0'] ++ ['\n'], ['x']) ∧
    loginRemoteip (['1', '0'] ++ '\n' :: ['x']) = ['1', '0'] :=
  login_line_extraction ['1', '0'] ['x'] (by decide) (by decide) (by decide)

/-! ## Teardown accounting and exit codes -/

/-- C3 counterexample: with a configuration store that cannot be
opened, the process exits with code 1 and Link Teardown runs zero
times, not exactly once as claimed for the config-read failure path. -/
theorem teardown_skipped_on_cfg_failure :
    (runProgram envCfgFail).outcome = .exited 1 ∧
    (runProgram envCfgFail).teardowns = 0 ∧
    ¬((runProgram envCfgFail).teardowns = 1) := by decide

/-- C3 (amended): Link Teardown runs exactly once on every run that
completes link establishment (reaching the relay loop) — the normal
path, signal-triggered exit, host EOF, and mid-relay I/O failure all
included — and zero times on every run that fails beforehand:
config-read failure, authorization failure, and link-setup failure
(descriptor allocation, raw-mode configuration, or
encapsulation-verification failure). -/
theorem teardown_iff_established (env : Env) :
    (runProgram env).teardowns = if establishes env = true then 1 else 0 := by
  unfold runProgram establishes loginOk
  cases hl : loginStep env <;> simp only [hl] <;> try simp
  by_cases hp : (open_pty_pair env.pty).ret = 0
  · simp [hp]
  · by_cases ht : env.ttyOk = false
    · simp [hp, ht]
    · cases hs : slip_setup env with
      | none => simp [hp, ht, hs]
      | some x =>
        obtain ⟨lunit, old⟩ := x
        cases hr : runRelay env.relayEvents initRelay <;>
          simp [hp, ht, hs, hr]

/-- Witness for `teardown_iff_established`: the fully successful demo
run tears the link down exactly once. -/
theorem teardown_iff_established_w :
    (runProgram envFull).teardowns = 1 := by
  rw [teardown_iff_established envFull]
  decide

/-- C5: relay exit codes and their teardown: a zero-length read on the
host-input descriptor exits with code 0; a failed read or a non-positive
write on the link descriptor exits with code 1; any relay exit yields
that code as the process exit status after exactly one teardown; and
authorization failure as well as any link-setup failure exits with
status 1. -/
theorem exit_codes :
    (∀ (e : SelectEvent) (s : RelayState), s.rStdin = true →
      e.ready0 = true → e.readStdin = some [] →
      exitsWith 0 (stepRelay e s)) ∧
    (∀ (e : SelectEvent) (s : RelayState), e.ready0 = false →
      s.rMaster = true → e.readyRM = true → e.readMaster = none →
      exitsWith 1 (stepRelay e s)) ∧
    (∀ (e : SelectEvent) (s : RelayState), e.ready0 = false →
      e.readyRM = false → s.wMaster = true → e.readyWM = true →
      e.writeMaster ≤ 0 → exitsWith 1 (stepRelay e s)) ∧
    (∀ (env : Env) (c : Nat) (t : RelayState), establishes env = true →
      runRelay env.relayEvents initRelay = .error (c, t) →
      (runProgram env).outcome = .exited c ∧
        (runProgram env).teardowns = 1) ∧
    (∀ env : Env, loginStep env = .unauth →
      (runProgram env).outcome = .exited 1 ∧
        (runProgram env).teardowns = 0) ∧
    (∀ env : Env, loginOk env = true → establishes env = false →
      (runProgram env).outcome = .exited 1 ∧
        (runProgram env).teardowns = 0) := by
  refine ⟨?_, ?_, ?_, ?_, ?_, ?_⟩
  · intro e s h1 h2 h3
    simp [stepRelay, stepHostRead, h1, h2, h3, exitsWith]
  · intro e s h1 h2 h3 h4
    simp [stepRelay, stepHostRead, stepLinkRead, h1, h2, h3, h4, exitsWith]
  · intro e s h1 h2 h3 h4 h5
    simp [stepRelay, stepHostRead, stepLinkRead, stepLinkWrite,
      h1, h2, h3, h4, h5, exitsWith]
  · intro env c t hest hr
    unfold establishes loginOk at hest
    unfold runProgram
    cases hl : loginStep env <;> simp only [hl] at hest ⊢ <;>
      simp only [Bool.false_and, Bool.true_and, Bool.and_eq_true,
        bne_iff_ne, ne_eq] at hest
    · cases hest
    · cases hest
    · cases hest
    · obtain ⟨⟨hret, hty⟩, hiso⟩ := hest
      cases hs : slip_setup env with
      | none => rw [hs] at hiso; simp at hiso
      | some x =>
        obtain ⟨u0, o0⟩ := x
        simp [hret, hty, hs, hr]
  · intro env hl
    simp [runProgram, hl]
  · intro env hok hest
    unfold establishes at hest
    rw [hok, Bool.true_and] at hest
    unfold loginOk at hok
    unfold runProgram
    cases hl : loginStep env <;> simp only [hl] at hok ⊢
    · cases hok
    · cases hok
    · cases hok
    · by_cases hp : (open_pty_pair env.pty).ret = 0
      · simp [hp]
      · by_cases ht : env.ttyOk = false
        · simp [hp, ht]
        · cases hs : slip_setup env with
          | none => simp [hp, ht, hs]
          | some x =>
            rw [hs] at hest
            simp [hp, ht] at hest

/-- Witness for `exit_codes`: an EOF round on stdin makes the relay
exit with code 0, and a demo run whose schedule is that single round
exits the process with status 0 after exactly one teardown. -/
theorem exit_codes_w :
    exitsWith 0 (stepRelay evEof initRelay) ∧
    (runProgram envRelayEof).outcome = .exited 0 ∧
    (runProgram envRelayEof).teardowns = 1 := by
  refine ⟨exit_codes.1 evEof initRelay rfl rfl rfl, ?_, ?_⟩
  · exact (exit_codes.2.2.2.1 envRelayEof 0 initRelay (by decide) (by decide)).1
  · exact (exit_codes.2.2.2.1 envRelayEof 0 initRelay (by decide) (by decide)).2

/-! ## SLIP mode verification -/

/-- C6: after switching the link descriptor to the SLIP discipline,
`slip_setup` re-queries both the line discipline and the encapsulation
parameter, and succeeds exactly when each ioctl succeeded, the
re-queried discipline equals `N_SLIP`, and the re-queried encapsulation
equals the value 0 that was set; the activation hook and the relay run
only after this verification succeeds, and any failure or mismatch
exits the process with status 1, with no hook invocation and no
relay. -/
theorem slip_setup_verifies :
    (∀ env : Env, (slip_setup env).isSome = true ↔
      (env.getdOk = true ∧ ¬(env.setdRet < 0) ∧ env.setencapOk = true ∧
        env.getd2Ok = true ∧ env.getencapOk = true ∧
        env.getd2 = N_SLIP ∧ env.getencap2 = 0)) ∧
    (∀ env : Env, (runProgram env).cmds ≠ [] →
      (slip_setup env).isSome = true) ∧
    (∀ env : Env, loginOk env = true → (open_pty_pair env.pty).ret ≠ 0 →
      env.ttyOk = true → slip_setup env = none →
      (runProgram env).outcome = .exited 1 ∧ (runProgram env).cmds = [] ∧
        (runProgram env).teardowns = 0) := by
  refine ⟨?_, ?_, ?_⟩
  · intro env
    unfold slip_setup
    by_cases h1 : env.getdOk = false
    · simp [h1]
    · by_cases h2 : env.setdRet < 0
      · simp [h1, h2]
      · by_cases h3 : env.setencapOk = false
        · simp [h1, h2, h3, -not_lt]
        · by_cases h4 : env.getd2Ok = false
          · simp [h1, h2, h3, h4, -not_lt]
          · by_cases h5 : env.getencapOk = false
            · simp [h1, h2, h3, h4, h5, -not_lt]
            · by_cases h6 : env.getd2 ≠ N_SLIP ∨ env.getencap2 ≠ 0
              · rcases h6 with h6 | h6 <;>
                  simp [h1, h2, h3, h4, h5, h6, -not_lt]
              · obtain ⟨h6a, h6b⟩ := not_or.mp h6
                rw [not_ne_iff] at h6a h6b
                simp [h1, h2, h3, h4, h5, h6a, h6b, -not_lt]
  · intro env h
    unfold runProgram at h
    cases hl : loginStep env <;> simp only [hl] at h
    · simp at h
    · simp at h
    · simp at h
    · by_cases hp : (open_pty_pair env.pty).ret = 0
      · simp [hp] at h
      · by_cases ht : env.ttyOk = false
        · simp [hp, ht] at h
        · cases hs : slip_setup env with
          | none => simp [hp, ht, hs] at h
          | some x => simp [hs]
  · intro env h1 h2 h3 h4
    unfold loginOk at h1
    unfold runProgram
    cases hl : loginStep env <;> simp only [hl] at h1 ⊢
    · cases h1
    · cases h1
    · cases h1
    · simp [h2, h3, h4]

/-- Witness for `slip_setup_verifies`: the demo environment whose
re-queried line discipline is 0 instead of `N_SLIP` exits with status 1
and never invokes the hooks. -/
theorem slip_setup_verifies_w :
    (runProgram envMismatch).outcome = .exited 1 ∧
    (runProgram envMismatch).cmds = [] ∧
    (runProgram envMismatch).teardowns = 0 :=
  slip_setup_verifies.2.2 envMismatch (by decide) (by decide) (by decide)
    (by decide)

/-! ## Hook arguments come from the matched configuration record -/

/-- Helper: one `scanField` token never exceeds its width. -/
theorem scanField_length {w : Nat} {cs tok rest : List Char}
    (h : scanField w cs = some (tok, rest)) : tok.length ≤ w := by
  rcases hd : cs.dropWhile isSpaceC with _ | ⟨c0, cs2⟩
  · simp only [scanField, hd] at h
    exact Option.noConfusion h
  · simp only [scanField, hd, Option.some.injEq, Prod.mk.injEq] at h
    obtain ⟨h1, -⟩ := h
    rw [← h1, List.length_take]
    exact Nat.min_le_left _ _

/-- Helper: the `localip` and `script` fields produced by
`parseCfgLine` fit within the `sscanf` widths, hence within the
`strncpy` destinations used by `login`. -/
theorem parseCfgLine_widths {line : List Char} {c : cfgentry}
    (h : parseCfgLine line = some c) :
    c.localip.toList.length ≤ 63 ∧ c.script.toList.length ≤ 255 := by
  unfold parseCfgLine at h
  split at h
  · cases h
  next u r1 heq1 =>
    split at h
    · cases h
    next rip r2 heq2 =>
      split at h
      · cases h
      next lip r3 heq3 =>
        have hlip := scanField_length heq3
        rcases h4 : scanField 255 r3 with _ | ⟨s4, r4⟩ <;>
            simp only [h4] at h <;>
            by_cases hu : u.head? = some '#'
        · rw [if_pos hu] at h; cases h
        · rw [if_neg hu] at h
          injection h with h
          subst h
          exact ⟨hlip, Nat.zero_le _⟩
        · rw [if_pos hu] at h; cases h
        · rw [if_neg hu] at h
          injection h with h
          subst h
          exact ⟨hlip, scanField_length h4⟩

/-- Helper: `strncpy` into a destination with room for the whole source
copies it intact. -/
theorem strTake_of_le {n : Nat} {s : String} (h : s.toList.length ≤ n) :
    strTake n s = s := by
  unfold strTake
  rw [List.take_of_length_le h]
  cases s
  rfl

/-- Helper: a successful lookup returns a record that matches both
request strings exactly and whose copied fields fit `login`'s
buffers. -/
theorem getcfgbyid_props {lines : List (List Char)} {u r : String}
    {c : cfgentry} (h : getcfgbyid lines u r = some c) :
    c.username = u ∧ c.remoteip = r ∧ strTake 64 c.localip = c.localip ∧
      strTake 256 c.script = c.script := by
  unfold getcfgbyid at h
  have hm := List.find?_some h
  simp only [matchesId, Bool.and_eq_true, beq_iff_eq] at hm
  have hmem := List.mem_of_find?_eq_some h
  unfold cfgRecords at hmem
  obtain ⟨line, -, hp⟩ := List.mem_filterMap.mp hmem
  have hw := parseCfgLine_widths hp
  exact ⟨hm.1, hm.2, strTake_of_le (le_trans hw.1 (by omega)),
    strTake_of_le (le_trans hw.2 (by omega))⟩

/-- Helper: a successful `slip_setup` returns the `TIOCSETD` result as
the unit number, together with the saved line discipline. -/
theorem slip_setup_some {env : Env} {x : Int × Int}
    (h : slip_setup env = some x) : x = (env.setdRet, env.ldiscOld) := by
  unfold slip_setup at h
  split_ifs at h
  all_goals cases h
  rfl

/-- C7: whenever a run reaches the activation and deactivation hooks,
both externally executed command strings are built only from the
compiled-in ifconfig path, the kernel-assigned unit number, and the
fields of the matched configuration record; in particular the
remote-address argument equals the `remoteip` field of that record —
the host-supplied address string is used only after it compared equal
to it. -/
theorem hook_args_trusted (env : Env)
    (h : (runProgram env).cmds ≠ []) :
    ∃ c, getcfgbyid env.cfgLines (strTake 127 env.pwname)
        (String.mk (loginRemoteip env.hostLine)) = some c ∧
      (runProgram env).cmds =
        [startCmd env.ifconfig env.setdRet c.localip c.remoteip c.script,
          stopCmd env.ifconfig env.setdRet c.script c.remoteip c.localip] := by
  unfold runProgram at h ⊢
  cases hl : loginStep env <;> simp only [hl] at h ⊢
  · simp at h
  · simp at h
  · simp at h
  case ok u rip lip scr =>
    simp only [loginStep] at hl
    by_cases hn : (readline env.hostLine 64).1 = 0
    · simp [hn] at hl
    · rw [if_neg hn] at hl
      by_cases hcf : env.cfgOpen = false
      · simp [hcf] at hl
      · rw [if_neg hcf] at hl
        cases hg : getcfgbyid env.cfgLines (strTake 127 env.pwname)
            (String.mk (loginRemoteip env.hostLine)) with
        | none => rw [hg] at hl; cases hl
        | some c =>
          rw [hg] at hl
          injection hl with e1 e2 e3 e4
          obtain ⟨hcu, hcr, hcl, hcs⟩ := getcfgbyid_props hg
          by_cases hp : (open_pty_pair env.pty).ret = 0
          · simp [hp] at h
          · by_cases ht : env.ttyOk = false
            · simp [hp, ht] at h
            · cases hs : slip_setup env with
              | none => simp [hp, ht, hs] at h
              | some x =>
                obtain ⟨u0, o0⟩ := x
                have hx := slip_setup_some hs
                rw [Prod.mk.injEq] at hx
                refine ⟨c, rfl, ?_⟩
                rw [if_neg hp, if_neg ht]
                cases hr : runRelay env.relayEvents initRelay <;>
                  simp only [hr] <;>
                  rw [← e2, ← e3, ← e4, hcl, hcs, hcr, hx.1]

/-- Witness for `hook_args_trusted`: in the demo run the two hook
commands are exactly the ifconfig and script invocations built from the
fields of the matched record. -/
theorem hook_args_trusted_w :
    (runProgram envFull).cmds =
      [startCmd "/sbin/ifconfig" 0 "10.0.0.1" "10.0.0.2" "/etc/vmnet/up.sh",
        stopCmd "/sbin/ifconfig" 0 "/etc/vmnet/up.sh" "10.0.0.2"
          "10.0.0.1"] := by
  obtain ⟨c, hc, hcm⟩ := hook_args_trusted envFull (by decide)
  have hc2 : (some demoEntry : Option cfgentry) = some c := by
    rw [← hc]; decide
  injection hc2 with hc2
  rw [hcm, ← hc2]
  rfl

end VMnet
